import Mathlib

/-!
Verification of `aiostream/aiter_utils.py`.

This file gives a shallow embedding of the module and proves properties of
the `AsyncIteratorContext` state machine, its producer loop, the wrapping
entry point `aitercontext`, and the small helpers (`async_`).

Modelling conventions:
  * The wrapped async iterator is a pure description `AIterSpec`: a function
    from the pull index (how many times `anext` was already called on it) to
    the outcome of that pull, plus the attributes the producer finalizer
    inspects (`aclose` presence, `ag_running`, behaviour of `aclose()`).
  * Python exception classes are split per the spec taxonomy:
    `TypeError` (TypeMismatch), `RuntimeError` (InvalidState),
    `StopAsyncIteration` (IterationComplete), plus arbitrary user errors of
    type `eps`.
  * The rendezvous handshake makes consumer and producer alternate
    deterministically (one demand token, one response), so the pair is
    modelled as a sequential step function on a context state: `anextCtx`
    performs one full handshake round (consumer side of `__anext__` plus
    the producer reaction of `_task_target` to one demand token).
  * Concurrency primitives (`compat.create_task_group`, `compat.open_channel`,
    `compat.open_cancel_scope`) are external capabilities described by
    section 6 of the design: joining the task group cancels and awaits
    remaining work; the shielded scope protects the close call. They are
    modelled by the bookkeeping fields of `Ctx` (`producerRunning`,
    `joinErrs`) and by the `shielded` flag of `CloseOutcome`.
-/

/-- Outcome of one `anext(self._aiterator)` call inside the producer loop
(`_task_target`, lines 130-142): an item, `StopAsyncIteration`, an
`Exception`, or a `BaseException` that is not an `Exception`. -/
inductive PullRes (alpha eps : Type) where
  | item (a : alpha)
  | stop
  | exn (e : eps)
  | baseExn (e : eps)
  deriving DecidableEq, Repr

/-- Behaviour of the wrapped iterator when its `aclose()` hook is awaited. -/
inductive CloseBeh (eps : Type) where
  | ok
  | genExit
  | raises (e : eps)
  deriving DecidableEq, Repr

/-- The diagnostics carried by the `TypeError` / `RuntimeError` raises in the
source, by their message text. -/
inductive ErrMsg where
  | notAsyncIterable      -- "object is not async iterable" (line 62)
  | notAsyncIterator      -- "object is not an async iterator" (line 76)
  | alreadyWrapped        -- "is already an AsyncIteratorContext" (line 110)
  | runningCannotEnter    -- "is running and cannot be entered" (line 208)
  | closedCannotEnter     -- "is closed and cannot be entered" (line 211)
  | closedCannotIterate   -- "is closed and cannot be iterated" (line 176)
  deriving DecidableEq, Repr

/-- A raised Python error, split by exception class: `typeError` is the
TypeMismatch class of the design, `runtimeError` the InvalidState class. -/
inductive PyErr where
  | typeError (m : ErrMsg)
  | runtimeError (m : ErrMsg)
  deriving DecidableEq, Repr

/-- States of the context state machine (class attributes, lines 100-104). -/
inductive CtxState where
  | standby
  | running
  | finished
  | busy
  | exhausted
  deriving DecidableEq, Repr

/-- The wrapped asynchronous iterator, as the producer loop observes it:
`pull k` is the outcome of the k-th `anext` call on it (0-indexed);
`hasAclose` is whether `getattr(aiterator, aclose, None)` is non-None
(line 148); `agRunning` is `getattr(aiterator, ag_running, False)`
(line 151); `acloseBeh` is what `await aclose()` does (line 157). -/
structure AIterSpec (alpha eps : Type) where
  pull : Nat → PullRes alpha eps
  hasAclose : Bool
  agRunning : Bool
  acloseBeh : CloseBeh eps

/-- State of an `AsyncIteratorContext` instance, together with the
bookkeeping needed to express the resource-safety claims:
`pulls` counts `anext` calls made on the wrapped iterator so far,
`producerRunning` tracks whether the spawned `_task_target` task is alive,
`closeCalls` counts invocations of the wrapped iterator close hook,
`joinErrs` holds errors kept by the task group until it is joined in
`__aexit__`, and `warnCount` counts usage warnings issued. -/
structure Ctx (alpha eps : Type) where
  aiterator : AIterSpec alpha eps
  state : CtxState
  pulls : Nat
  producerRunning : Bool
  closeCalls : Nat
  joinErrs : List eps
  warnCount : Nat

/-- A freshly constructed context (`__init__`, lines 112-116): state STANDBY,
channels opened, no task spawned yet. -/
def mkCtx {alpha eps : Type} (it : AIterSpec alpha eps) : Ctx alpha eps :=
  { aiterator := it
    state := CtxState.standby
    pulls := 0
    producerRunning := false
    closeCalls := 0
    joinErrs := []
    warnCount := 0 }

/-- Outcome of the producer loop finalizer (`_task_target`, lines 145-161):
whether `aclose()` was invoked, whether the invocation ran inside the
shielded cancel scope, and which error (if any) escapes the shutdown. -/
structure CloseOutcome (eps : Type) where
  attempted : Bool
  shielded : Bool
  escapes : Option eps
  deriving DecidableEq, Repr

/-- The `finally` block of `_task_target` (lines 145-161): look up `aclose`
and `ag_running`; if an aclose hook exists and the iterator is not reported
running, await `aclose()` inside `open_cancel_scope(shield=True)`; a
`GeneratorExit` raised by the close call is swallowed (bpo-35409 workaround,
lines 160-161); any other error escapes the producer shutdown. -/
def producerFinalize {alpha eps : Type} (it : AIterSpec alpha eps) :
    CloseOutcome eps :=
  if it.hasAclose && !it.agRunning then
    match it.acloseBeh with
    | CloseBeh.ok => { attempted := true, shielded := true, escapes := none }
    | CloseBeh.genExit => { attempted := true, shielded := true, escapes := none }
    | CloseBeh.raises e => { attempted := true, shielded := true, escapes := some e }
  else
    { attempted := false, shielded := false, escapes := none }

/-- A message the producer sends on the item channel: `(item, None)` or
`(None, exc)` pairs (lines 132 and 141). -/
inductive ProdMsg (alpha eps : Type) where
  | sent (a : alpha)
  | sentExn (e : eps)
  deriving DecidableEq, Repr

/-- Reaction of the producer loop body to one demand token
(`_task_target`, lines 126-142): which messages go on the item channel,
whether the loop keeps waiting for more tokens, and which `BaseException`
(not caught by the `except Exception` clause) escapes the loop body. -/
structure ProdReact (alpha eps : Type) where
  msgs : List (ProdMsg alpha eps)
  continues : Bool
  escaped : Option eps
  deriving DecidableEq, Repr

/-- One iteration of the producer `while True` loop after receiving a demand
token: pull one item from the wrapped iterator and dispatch on the outcome
(lines 130-142). A `StopAsyncIteration` breaks the loop with nothing sent;
an `Exception` is sent as `(None, exc)` and breaks the loop; any other
`BaseException` escapes the loop body with nothing sent. -/
def producerReact {alpha eps : Type} (it : AIterSpec alpha eps) (k : Nat) :
    ProdReact alpha eps :=
  match it.pull k with
  | PullRes.item a => { msgs := [ProdMsg.sent a], continues := true, escaped := none }
  | PullRes.stop => { msgs := [], continues := false, escaped := none }
  | PullRes.exn e => { msgs := [ProdMsg.sentExn e], continues := false, escaped := none }
  | PullRes.baseExn e => { msgs := [], continues := false, escaped := some e }

/-- Apply the producer exit to the context bookkeeping: the producer task
runs its finalizer (close attempt) and terminates; `taskErr` is the
`BaseException` in flight when the finalizer runs, if any. Per Python
semantics an error raised inside the `finally` block supersedes the
in-flight one; the resulting task error is kept by the task group in
`joinErrs` until the group is joined. -/
def finalizeInto {alpha eps : Type} (c : Ctx alpha eps) (taskErr : Option eps) :
    Ctx alpha eps :=
  { c with
    producerRunning := false
    closeCalls :=
      c.closeCalls + (if (producerFinalize c.aiterator).attempted then 1 else 0)
    joinErrs :=
      c.joinErrs ++
        (match (producerFinalize c.aiterator).escapes with
         | some e2 => [e2]
         | none => taskErr.toList) }

/-- The argument handed to the `AsyncIteratorContext` constructor: a plain
async iterator, an object that is already an `AsyncIteratorContext`, or a
value lacking the `__anext__` capability. -/
inductive IterArg (alpha eps : Type) where
  | plain (it : AIterSpec alpha eps)
  | ctx (c : Ctx alpha eps)
  | noAnext

/-- `AsyncIteratorContext.__init__` (lines 106-116): assert the argument is
an async iterator (`assert_async_iterator`, raising `TypeError` otherwise,
lines 71-77); raise `TypeError` if it is already an
`AsyncIteratorContext` (lines 109-111); otherwise build the fresh context. -/
def initCtx {alpha eps : Type} : IterArg alpha eps → Except PyErr (Ctx alpha eps)
  | IterArg.noAnext => Except.error (PyErr.typeError ErrMsg.notAsyncIterator)
  | IterArg.ctx _ => Except.error (PyErr.typeError ErrMsg.alreadyWrapped)
  | IterArg.plain it => Except.ok (mkCtx it)

/-- The argument handed to `aitercontext`: an async iterable whose
`__aiter__` returns a plain iterator, an `AsyncIteratorContext` (whose
`__aiter__` returns itself, line 163-164), or a value lacking `__aiter__`. -/
inductive AIterable (alpha eps : Type) where
  | plainIterable (it : AIterSpec alpha eps)
  | ctxIterable (c : Ctx alpha eps)
  | notIterable

/-- `aiter` (lines 22-25): assert the async-iterable capability (raising
`TypeError` otherwise, lines 57-63) and obtain the iterator form. -/
def aiterFn {alpha eps : Type} :
    AIterable alpha eps → Except PyErr (IterArg alpha eps)
  | AIterable.notIterable => Except.error (PyErr.typeError ErrMsg.notAsyncIterable)
  | AIterable.plainIterable it => Except.ok (IterArg.plain it)
  | AIterable.ctxIterable c => Except.ok (IterArg.ctx c)

/-- `aitercontext` (lines 239-263), at the default `cls`: obtain the
iterator form with `aiter`; if it is already an instance of the context
class, return it unchanged; otherwise construct a new context around it. -/
def aitercontext {alpha eps : Type} (v : AIterable alpha eps) :
    Except PyErr (Ctx alpha eps) :=
  match aiterFn v with
  | Except.error e => Except.error e
  | Except.ok (IterArg.ctx c) => Except.ok c
  | Except.ok arg => initCtx arg

/-- Result of one `__anext__` call, as observed by the caller. -/
inductive NextRes (alpha eps : Type) where
  | item (a : alpha)
  | stopAsyncIteration
  | raised (e : eps)
  | invalid (m : ErrMsg)
  deriving DecidableEq, Repr

/-- The STANDBY branch of `__anext__` (lines 168-172): issue the usage
warning, then perform `__aenter__`, which from STANDBY sets the state to
RUNNING and spawns the producer task (lines 206-218). -/
def autoEnter {alpha eps : Type} (c : Ctx alpha eps) : Ctx alpha eps :=
  { c with
    state := CtxState.running
    producerRunning := true
    warnCount := c.warnCount + 1 }

/-- `__anext__` after the STANDBY guard (lines 174-204), fused with the
producer reaction to the demand token it sends: FINISHED raises
`RuntimeError`; EXHAUSTED raises `StopAsyncIteration`; otherwise the state
becomes BUSY and a demand token is sent (lines 184-186), the producer pulls
once from the wrapped iterator, and the consumer receives from the item
channel: an `(item, None)` pair returns the item and sets RUNNING
(lines 202-204); a closed channel (producer broke on `StopAsyncIteration`,
ran its finalizer, and the channel closed) sets EXHAUSTED and re-raises
(lines 192-195); a `(None, exc)` pair sets EXHAUSTED and raises `exc`
(lines 197-200); a `BaseException` escaping the producer loop sends
nothing — the finalizer still runs, the channel closes (so the consumer
observes exhaustion), and the exception is kept by the task group until
joined. -/
def anextRun {alpha eps : Type} (c : Ctx alpha eps) :
    NextRes alpha eps × Ctx alpha eps :=
  if c.state = CtxState.finished then
    (NextRes.invalid ErrMsg.closedCannotIterate, c)
  else if c.state = CtxState.exhausted then
    (NextRes.stopAsyncIteration, c)
  else
    match c.aiterator.pull c.pulls with
    | PullRes.item a =>
        (NextRes.item a,
         { c with state := CtxState.running, pulls := c.pulls + 1 })
    | PullRes.stop =>
        (NextRes.stopAsyncIteration,
         { finalizeInto { c with pulls := c.pulls + 1 } none with
             state := CtxState.exhausted })
    | PullRes.exn e =>
        (NextRes.raised e,
         { finalizeInto { c with pulls := c.pulls + 1 } none with
             state := CtxState.exhausted })
    | PullRes.baseExn e =>
        (NextRes.stopAsyncIteration,
         { finalizeInto { c with pulls := c.pulls + 1 } (some e) with
             state := CtxState.exhausted })

/-- `__anext__` (lines 166-204): the STANDBY guard (warn and auto-enter),
then the body `anextRun`. -/
def anextCtx {alpha eps : Type} (c : Ctx alpha eps) :
    NextRes alpha eps × Ctx alpha eps :=
  anextRun (if c.state = CtxState.standby then autoEnter c else c)

/-- `__aenter__` (lines 206-218): RUNNING and FINISHED are rejected with
`RuntimeError`; otherwise the state becomes RUNNING, the sync channel is
opened, the task group entered, and the producer task spawned. -/
def aenterCtx {alpha eps : Type} (c : Ctx alpha eps) :
    Except PyErr (Ctx alpha eps) :=
  if c.state = CtxState.running then
    Except.error (PyErr.runtimeError ErrMsg.runningCannotEnter)
  else if c.state = CtxState.finished then
    Except.error (PyErr.runtimeError ErrMsg.closedCannotEnter)
  else
    Except.ok { c with state := CtxState.running, producerRunning := true }

/-- The exception situation at `__aexit__` (its `typ` argument): no active
exception, `GeneratorExit`, or any other exception type. -/
inductive ExitType where
  | noExc
  | genExit
  | failure
  deriving DecidableEq, Repr

/-- `__aexit__` (lines 220-236): if already FINISHED, return immediately
(line 222-223). Otherwise, for `typ` in (None, GeneratorExit) the task
group scope is cancelled (lines 226-227); in every case the task group is
joined (lines 229-232) — by the scope contract of section 6 the join
cancels and awaits remaining work, so an alive producer is interrupted at
its wait and runs its (shielded) finalizer now. Errors kept by the group
(close-hook errors, escaped base exceptions) are raised to the caller of
`__aexit__`; the `finally` (line 235-236) sets the state to FINISHED in
every case before the error propagates. Returns the list of raised errors
together with the final context. -/
def aexitCtx {alpha eps : Type} (c : Ctx alpha eps) (_typ : ExitType) :
    List eps × Ctx alpha eps :=
  if c.state = CtxState.finished then
    ([], c)
  else
    match (if c.producerRunning then finalizeInto c none else c) with
    | c1 => (c1.joinErrs, { c1 with state := CtxState.finished, joinErrs := [] })

/-- What a Python callable returns: a plain (non-awaitable) value, or an
awaitable that resolves to a value or raises. -/
inductive RetVal (alpha eps : Type) where
  | plain (a : alpha)
  | awaitable (res : Except eps alpha)

/-- Outcome of calling a function: it raises, or returns a value. -/
inductive CallRes (alpha eps : Type) where
  | raises (e : eps)
  | returns (v : RetVal alpha eps)

/-- Errors that an `await` expression can raise: the object is not
awaitable (`TypeError`), or the awaitable itself raised. -/
inductive AwaitErr (eps : Type) where
  | notAwaitable
  | exn (e : eps)
  deriving DecidableEq, Repr

/-- Semantics of `await obj`: awaiting a plain non-awaitable value raises
`TypeError`; awaiting an awaitable yields its resolution or raises its
error. -/
def awaitObj {alpha eps : Type} : RetVal alpha eps → Except (AwaitErr eps) alpha
  | RetVal.plain _ => Except.error AwaitErr.notAwaitable
  | RetVal.awaitable (Except.ok a) => Except.ok a
  | RetVal.awaitable (Except.error e) => Except.error (AwaitErr.exn e)

/-- `async_` (lines 42-47): the returned coroutine function calls `fn` with
the given arguments and awaits the result (`return await fn(*args, **kwargs)`).
An error raised by `fn` itself propagates before the await. -/
def asyncWrap {iota alpha eps : Type} (fn : iota → CallRes alpha eps)
    (i : iota) : Except (AwaitErr eps) alpha :=
  match fn i with
  | CallRes.raises e => Except.error (AwaitErr.exn e)
  | CallRes.returns v => awaitObj v

/-- A pull function backed by a finite list: the first `xs.length` pulls
yield the items of `xs` in order, every later pull gives `tail`. -/
def listPull {alpha eps : Type} :
    List alpha → PullRes alpha eps → Nat → PullRes alpha eps
  | [], tail, _ => tail
  | a :: _, _, 0 => PullRes.item a
  | _ :: rest, tail, k + 1 => listPull rest tail k

/-- Call `__anext__` a given number of times, collecting the results. -/
def iterate {alpha eps : Type} (c : Ctx alpha eps) :
    Nat → List (NextRes alpha eps) × Ctx alpha eps
  | 0 => ([], c)
  | n + 1 =>
      ((anextCtx c).1 :: (iterate (anextCtx c).2 n).1,
       (iterate (anextCtx c).2 n).2)

/-- Position of a state along the STANDBY → RUNNING/BUSY → EXHAUSTED →
FINISHED progression (RUNNING and BUSY share a rank). -/
def stateRank : CtxState → Nat
  | CtxState.standby => 0
  | CtxState.running => 1
  | CtxState.busy => 1
  | CtxState.exhausted => 2
  | CtxState.finished => 3

/-- The context right after a successful `__aenter__` on a fresh context:
state RUNNING, producer task spawned. -/
def startedCtx {alpha eps : Type} (it : AIterSpec alpha eps) : Ctx alpha eps :=
  { mkCtx it with state := CtxState.running, producerRunning := true }

/-- Concrete sample: a well-behaved three-item iterator. -/
def sampleOkIter : AIterSpec Nat String where
  pull := listPull [10, 20, 30] PullRes.stop
  hasAclose := true
  agRunning := false
  acloseBeh := CloseBeh.ok

/-- Concrete sample: one item, then the wrapped iterator raises on its
second pull. -/
def sampleErrIter : AIterSpec Nat String where
  pull := listPull [10] (PullRes.exn "boom")
  hasAclose := true
  agRunning := false
  acloseBeh := CloseBeh.ok

/-- Concrete sample: the close hook itself raises. -/
def sampleBadCloseIter : AIterSpec Nat String where
  pull := listPull [10] PullRes.stop
  hasAclose := true
  agRunning := false
  acloseBeh := CloseBeh.raises "close failed"

/-- Concrete sample: the first pull raises a `BaseException` that is not an
`Exception` (a cancellation-like error). -/
def sampleBaseExnIter : AIterSpec Nat String where
  pull := fun _ => PullRes.baseExn "cancelled"
  hasAclose := true
  agRunning := false
  acloseBeh := CloseBeh.ok

/-- Concrete sample: a fresh context over the three-item iterator. -/
def sampleCtx : Ctx Nat String := mkCtx sampleOkIter

/-- Concrete sample: a context whose state is FINISHED. -/
def sampleFinishedCtx : Ctx Nat String :=
  { mkCtx sampleOkIter with state := CtxState.finished }

/-- Concrete sample: a context whose state is EXHAUSTED. -/
def sampleExhaustedCtx : Ctx Nat String :=
  { mkCtx sampleOkIter with state := CtxState.exhausted }

/-- Whether a result is a raised error of the InvalidState class
(`RuntimeError`), as opposed to the TypeMismatch class (`TypeError`). -/
def raisesInvalidState {beta : Type} : Except PyErr beta → Bool
  | Except.error (PyErr.runtimeError _) => true
  | _ => false

/-- Concrete sample: an ordinary function returning the plain
(non-awaitable) value `5`. -/
def samplePlainFn : Unit → CallRes Nat String :=
  fun _ => CallRes.returns (RetVal.plain 5)

/-! ### Helper lemmas about iteration -/

theorem listPull_length {alpha eps : Type} (xs : List alpha)
    (tail : PullRes alpha eps) : listPull xs tail xs.length = tail := by
  induction xs with
  | nil => rfl
  | cons a rest ih => simpa [listPull] using ih

theorem anext_running_item {alpha eps : Type} (c : Ctx alpha eps) (a : alpha)
    (h1 : c.state = CtxState.running)
    (h2 : c.aiterator.pull c.pulls = PullRes.item a) :
    anextCtx c =
      (NextRes.item a,
       { c with state := CtxState.running, pulls := c.pulls + 1 }) := by
  simp [anextCtx, anextRun, h1, h2]

theorem anext_exhausted {alpha eps : Type} (c : Ctx alpha eps)
    (h : c.state = CtxState.exhausted) :
    anextCtx c = (NextRes.stopAsyncIteration, c) := by
  simp [anextCtx, anextRun, h]

theorem iterate_exhausted {alpha eps : Type} (c : Ctx alpha eps)
    (h : c.state = CtxState.exhausted) :
    ∀ m : Nat,
      iterate c m = (List.replicate m (NextRes.stopAsyncIteration), c) := by
  intro m
  induction m with
  | zero => simp [iterate]
  | succ n ih => simp [iterate, anext_exhausted c h, ih, List.replicate]

theorem iterate_add {alpha eps : Type} (m n : Nat) :
    ∀ c : Ctx alpha eps,
      iterate c (m + n) =
        ((iterate c m).1 ++ (iterate (iterate c m).2 n).1,
         (iterate (iterate c m).2 n).2) := by
  induction m with
  | zero => intro c; simp [iterate]
  | succ k ih =>
      intro c
      have hshift : k + 1 + n = (k + n) + 1 := by omega
      rw [hshift]
      simp only [iterate, ih (anextCtx c).2, List.cons_append]

theorem drain {alpha eps : Type} (xs : List alpha) (tail : PullRes alpha eps) :
    ∀ c : Ctx alpha eps, c.state = CtxState.running →
      (∀ k, c.aiterator.pull (c.pulls + k) = listPull xs tail k) →
      iterate c xs.length =
        (xs.map NextRes.item,
         { c with pulls := c.pulls + xs.length, state := CtxState.running }) := by
  induction xs with
  | nil =>
      intro c h1 _
      cases c with
      | mk it st p pr cc je wc =>
          simp only [List.length_nil, iterate, List.map_nil, Nat.add_zero]
          simp only at h1
          rw [h1]
  | cons a rest ih =>
      intro c h1 h2
      have hp0 : c.aiterator.pull c.pulls = PullRes.item a := by
        simpa [listPull] using h2 0
      have hstep := anext_running_item c a h1 hp0
      have hrest :
          ∀ k, c.aiterator.pull (c.pulls + 1 + k) = listPull rest tail k := by
        intro k
        have h21 := h2 (k + 1)
        rw [Nat.add_assoc, Nat.add_comm 1 k]
        simpa [listPull] using h21
      have hih := ih { c with state := CtxState.running, pulls := c.pulls + 1}
        rfl hrest
      simp only [List.length_cons, iterate, hstep, hih, List.map_cons]
      have harith : c.pulls + 1 + rest.length = c.pulls + (rest.length + 1) := by
        omega
      rw [harith]

theorem anext_running_stop {alpha eps : Type} (c : Ctx alpha eps)
    (h1 : c.state = CtxState.running)
    (h2 : c.aiterator.pull c.pulls = PullRes.stop) :
    anextCtx c =
      (NextRes.stopAsyncIteration,
       { finalizeInto { c with pulls := c.pulls + 1 } none with
           state := CtxState.exhausted }) := by
  simp [anextCtx, anextRun, h1, h2]

theorem anext_running_exn {alpha eps : Type} (c : Ctx alpha eps) (e : eps)
    (h1 : c.state = CtxState.running)
    (h2 : c.aiterator.pull c.pulls = PullRes.exn e) :
    anextCtx c =
      (NextRes.raised e,
       { finalizeInto { c with pulls := c.pulls + 1 } none with
           state := CtxState.exhausted }) := by
  simp [anextCtx, anextRun, h1, h2]

theorem producerFinalize_attempted {alpha eps : Type} (it : AIterSpec alpha eps)
    (hcl : it.hasAclose = true) (hrun : it.agRunning = false) :
    (producerFinalize it).attempted = true := by
  cases h : it.acloseBeh <;> simp [producerFinalize, hcl, hrun, h]

theorem aexit_finished {alpha eps : Type} (c : Ctx alpha eps)
    (typ : ExitType) (h : c.state = CtxState.finished) :
    aexitCtx c typ = ([], c) := by
  simp [aexitCtx, h]

theorem aexit_not_running {alpha eps : Type} (c : Ctx alpha eps)
    (typ : ExitType) (h1 : c.state ≠ CtxState.finished)
    (h2 : c.producerRunning = false) :
    aexitCtx c typ =
      (c.joinErrs, { c with state := CtxState.finished, joinErrs := [] }) := by
  simp [aexitCtx, h1, h2]

theorem aexit_running {alpha eps : Type} (c : Ctx alpha eps)
    (typ : ExitType) (h1 : c.state ≠ CtxState.finished)
    (h2 : c.producerRunning = true) :
    aexitCtx c typ =
      ((finalizeInto c none).joinErrs,
       { finalizeInto c none with state := CtxState.finished, joinErrs := [] }) := by
  simp [aexitCtx, h1, h2]

/-! ### C1: full drain yields the items, then exhaustion, and the close hook
runs exactly once by the time exit returns -/

/-- C1: for every async iterator that yields the items of `xs` and then
signals exhaustion (and that exposes a close hook and is not reported
running), entering the context and calling next `xs.length + 1` times
yields exactly the items of `xs` in order followed by IterationComplete
(`StopAsyncIteration`); the state is then EXHAUSTED, the close hook has
already been invoked exactly once, and after exit the state is FINISHED
with the close count still exactly one. -/
theorem c1_full_drain_close_once {alpha eps : Type} (xs : List alpha)
    (it : AIterSpec alpha eps)
    (hpull : it.pull = listPull xs PullRes.stop)
    (hcl : it.hasAclose = true) (hrun : it.agRunning = false) :
    ∃ c1 cEnd, aenterCtx (mkCtx it) = Except.ok c1 ∧
      iterate c1 (xs.length + 1) =
        (xs.map NextRes.item ++ [NextRes.stopAsyncIteration], cEnd) ∧
      cEnd.state = CtxState.exhausted ∧ cEnd.closeCalls = 1 ∧
      (aexitCtx cEnd ExitType.noExc).2.state = CtxState.finished ∧
      (aexitCtx cEnd ExitType.noExc).2.closeCalls = 1 := by
  have hatt := producerFinalize_attempted it hcl hrun
  have hdrain2 : iterate (startedCtx it) xs.length =
      (xs.map NextRes.item,
       ⟨it, CtxState.running, xs.length, true, 0, [], 0⟩) := by
    rw [drain xs PullRes.stop (startedCtx it) rfl
      (by intro k; simp [startedCtx, mkCtx, hpull])]
    simp [startedCtx, mkCtx]
  have hlast := anext_running_stop
    (⟨it, CtxState.running, xs.length, true, 0, [], 0⟩ : Ctx alpha eps) rfl
    (by simp [hpull, listPull_length])
  have hfull := iterate_add xs.length 1 (startedCtx it)
  rw [hdrain2] at hfull
  simp only [iterate, hlast, List.nil_append] at hfull
  refine ⟨startedCtx it, _, rfl, hfull, ?_, ?_, ?_, ?_⟩
  · simp [finalizeInto]
  · simp [finalizeInto, hatt]
  · rw [aexit_not_running _ _ (by simp [finalizeInto]) (by simp [finalizeInto])]
  · rw [aexit_not_running _ _ (by simp [finalizeInto]) (by simp [finalizeInto])]
    simp [finalizeInto, hatt]

/-- Witness for C1 at the concrete three-item source `[10, 20, 30]`. -/
theorem c1_full_drain_close_once_witness :
    ∃ c1 cEnd,
      aenterCtx (mkCtx sampleOkIter) = Except.ok c1 ∧
      iterate c1 (([10, 20, 30] : List Nat).length + 1) =
        (([10, 20, 30] : List Nat).map NextRes.item ++
          [NextRes.stopAsyncIteration], cEnd) ∧
      cEnd.state = CtxState.exhausted ∧ cEnd.closeCalls = 1 ∧
      (aexitCtx cEnd ExitType.noExc).2.state = CtxState.finished ∧
      (aexitCtx cEnd ExitType.noExc).2.closeCalls = 1 :=
  c1_full_drain_close_once [10, 20, 30] sampleOkIter rfl rfl rfl

/-! ### C2: an error on the k-th pull is delivered once, then the context is
permanently exhausted -/

/-- C2: for every wrapped iterator whose next-item step yields the items of
`xs` and then raises `e` on its next pull, iterating the entered context
yields the items of `xs`, then one `next()` call raises `e` (delivered to
exactly that one caller), the state permanently becomes EXHAUSTED, and
every subsequent `next()` call raises IterationComplete
(`StopAsyncIteration`) while the wrapped iterator is never pulled again
(the error is never retried or swallowed: the context no longer changes at
all). -/
theorem c2_error_on_kth_pull {alpha eps : Type} (xs : List alpha) (e : eps)
    (it : AIterSpec alpha eps)
    (hpull : it.pull = listPull xs (PullRes.exn e)) :
    ∃ c1, aenterCtx (mkCtx it) = Except.ok c1 ∧
      (iterate c1 xs.length).1 = xs.map NextRes.item ∧
      (anextCtx (iterate c1 xs.length).2).1 = NextRes.raised e ∧
      (anextCtx (iterate c1 xs.length).2).2.state = CtxState.exhausted ∧
      (anextCtx (iterate c1 xs.length).2).2.pulls = xs.length + 1 ∧
      ∀ m, iterate (anextCtx (iterate c1 xs.length).2).2 m =
        (List.replicate m NextRes.stopAsyncIteration,
         (anextCtx (iterate c1 xs.length).2).2) := by
  have hdrain2 : iterate (startedCtx it) xs.length =
      (xs.map NextRes.item,
       ⟨it, CtxState.running, xs.length, true, 0, [], 0⟩) := by
    rw [drain xs (PullRes.exn e) (startedCtx it) rfl
      (by intro k; simp [startedCtx, mkCtx, hpull])]
    simp [startedCtx, mkCtx]
  have hlast := anext_running_exn
    (⟨it, CtxState.running, xs.length, true, 0, [], 0⟩ : Ctx alpha eps) e rfl
    (by simp [hpull, listPull_length])
  refine ⟨startedCtx it, rfl, ?_, ?_, ?_, ?_, ?_⟩
  · rw [hdrain2]
  · simp [hdrain2, hlast]
  · simp [hdrain2, hlast, finalizeInto]
  · simp [hdrain2, hlast, finalizeInto]
  · intro m
    simp only [hdrain2, hlast]
    exact iterate_exhausted _ (by simp [finalizeInto]) m

/-- Witness for C2: one item, then the error `boom` on the second pull. -/
theorem c2_error_on_kth_pull_witness :
    ∃ c1, aenterCtx (mkCtx sampleErrIter) = Except.ok c1 ∧
      (iterate c1 ([10] : List Nat).length).1 =
        ([10] : List Nat).map NextRes.item ∧
      (anextCtx (iterate c1 ([10] : List Nat).length).2).1 =
        NextRes.raised "boom" ∧
      (anextCtx (iterate c1 ([10] : List Nat).length).2).2.state =
        CtxState.exhausted ∧
      (anextCtx (iterate c1 ([10] : List Nat).length).2).2.pulls =
        ([10] : List Nat).length + 1 ∧
      ∀ m, iterate (anextCtx (iterate c1 ([10] : List Nat).length).2).2 m =
        (List.replicate m NextRes.stopAsyncIteration,
         (anextCtx (iterate c1 ([10] : List Nat).length).2).2) :=
  c2_error_on_kth_pull [10] "boom" sampleErrIter rfl

/-! ### C4: exit is idempotent and always finishes in FINISHED -/

/-- C4: `exit()` always leaves the state FINISHED (even when errors are
raised while joining — the error list is returned together with the
already-updated state); calling it when the state is already FINISHED
returns immediately with no observable effect; and a second `exit()` after
a first one is such a no-op. -/
theorem c4_exit_idempotent {alpha eps : Type} (c : Ctx alpha eps)
    (t1 t2 : ExitType) :
    (aexitCtx c t1).2.state = CtxState.finished ∧
    (c.state = CtxState.finished → aexitCtx c t1 = ([], c)) ∧
    aexitCtx (aexitCtx c t1).2 t2 = ([], (aexitCtx c t1).2) := by
  by_cases h : c.state = CtxState.finished
  · refine ⟨?_, ?_, ?_⟩ <;> simp [aexitCtx, h]
  · have h2 : (aexitCtx c t1).2.state = CtxState.finished := by
      simp [aexitCtx, h]
    exact ⟨h2, fun hf => absurd hf h, aexit_finished _ t2 h2⟩

/-- Witness for C4 at a context already FINISHED: exit returns immediately
with no effect, and its resulting state is FINISHED. -/
theorem c4_exit_idempotent_witness :
    (aexitCtx sampleFinishedCtx ExitType.noExc).2.state = CtxState.finished ∧
    aexitCtx sampleFinishedCtx ExitType.noExc = ([], sampleFinishedCtx) :=
  ⟨(c4_exit_idempotent sampleFinishedCtx ExitType.noExc ExitType.noExc).1,
   (c4_exit_idempotent sampleFinishedCtx ExitType.noExc ExitType.noExc).2.1 rfl⟩

/-! ### C8: misuse guards -/

/-- C8: calling `enter()` while the state is RUNNING fails with the
InvalidState class (`RuntimeError`, running and cannot be entered), and
calling `next()` once the state is FINISHED fails with the InvalidState
class (`RuntimeError`, closed and cannot be iterated) without touching the
context. -/
theorem c8_misuse_guards {alpha eps : Type} (c : Ctx alpha eps) :
    (c.state = CtxState.running →
      aenterCtx c =
        Except.error (PyErr.runtimeError ErrMsg.runningCannotEnter)) ∧
    (c.state = CtxState.finished →
      anextCtx c = (NextRes.invalid ErrMsg.closedCannotIterate, c)) := by
  refine ⟨fun h => ?_, fun h => ?_⟩
  · simp [aenterCtx, h]
  · simp [anextCtx, anextRun, h]

/-- Witness for C8: entering a running context and iterating a finished
one. -/
theorem c8_misuse_guards_witness :
    aenterCtx (startedCtx sampleOkIter) =
      Except.error (PyErr.runtimeError ErrMsg.runningCannotEnter) ∧
    anextCtx sampleFinishedCtx =
      (NextRes.invalid ErrMsg.closedCannotIterate, sampleFinishedCtx) :=
  ⟨(c8_misuse_guards (startedCtx sampleOkIter)).1 rfl,
   (c8_misuse_guards sampleFinishedCtx).2 rfl⟩

/-! ### C3: the close attempt on producer exit -/

/-- C3: on every exit of the producer loop the wrapped iterator close hook
is attempted iff the iterator exposes a close hook and is not reported
running; the attempt runs inside the shielded scope; a `GeneratorExit`
raised by the close call is swallowed; any other error raised by the close
call escapes the producer shutdown, and while the producer is still alive
at exit time that escaped error is raised out of the context exit path. -/
theorem c3_close_on_producer_exit {alpha eps : Type}
    (it : AIterSpec alpha eps) :
    (producerFinalize it).attempted = (it.hasAclose && !it.agRunning) ∧
    (producerFinalize it).shielded = (producerFinalize it).attempted ∧
    (it.acloseBeh = CloseBeh.genExit → (producerFinalize it).escapes = none) ∧
    (∀ e, it.acloseBeh = CloseBeh.raises e →
      (producerFinalize it).attempted = true →
      (producerFinalize it).escapes = some e) ∧
    (∀ (c : Ctx alpha eps) (typ : ExitType), c.aiterator = it →
      c.state ≠ CtxState.finished → c.producerRunning = true →
      (aexitCtx c typ).1 =
        c.joinErrs ++ (producerFinalize it).escapes.toList) := by
  refine ⟨?_, ?_, ?_, ?_, ?_⟩
  · cases hb : it.hasAclose <;> cases hr : it.agRunning <;>
      cases hbeh : it.acloseBeh <;> simp [producerFinalize, hb, hr, hbeh]
  · cases hb : it.hasAclose <;> cases hr : it.agRunning <;>
      cases hbeh : it.acloseBeh <;> simp [producerFinalize, hb, hr, hbeh]
  · intro hbeh
    cases hb : it.hasAclose <;> cases hr : it.agRunning <;>
      simp [producerFinalize, hb, hr, hbeh]
  · intro e hbeh hatt
    by_cases hc : (it.hasAclose && !it.agRunning) = true
    · simp [producerFinalize, hc, hbeh]
    · exfalso
      simp [producerFinalize, hc] at hatt
  · intro c typ hit h1 h2
    rw [aexit_running c typ h1 h2]
    simp only [finalizeInto, hit]
    cases hesc : (producerFinalize it).escapes <;> simp [hesc]

/-- Witness for C3: an iterator with a close hook, not running, whose close
call raises; the error escapes and surfaces at the context exit. -/
theorem c3_close_on_producer_exit_witness :
    (producerFinalize sampleBadCloseIter).attempted = true ∧
    (producerFinalize sampleBadCloseIter).escapes = some "close failed" ∧
    (aexitCtx (startedCtx sampleBadCloseIter) ExitType.noExc).1 =
      ["close failed"] := by
  have h := c3_close_on_producer_exit sampleBadCloseIter
  refine ⟨by rw [h.1]; rfl, ?_, ?_⟩
  · exact h.2.2.2.1 "close failed" rfl (by rw [h.1]; rfl)
  · have h5 := h.2.2.2.2 (startedCtx sampleBadCloseIter) ExitType.noExc rfl
      (by simp [startedCtx, mkCtx]) rfl
    rw [h5]
    rfl

/-! ### C10: a BaseException that is not an Exception bypasses the item
channel but not the finalizer -/

/-- C10: if the wrapped iterator's next-item step raises a `BaseException`
that is not an `Exception` on its k-th pull, the producer loop sends
nothing on the item channel (no `next()` caller receives it as a raised
error), the loop exits with that error escaping, and the close attempt of
the loop finalization still runs. -/
theorem c10_baseexception_escapes {alpha eps : Type}
    (it : AIterSpec alpha eps) (k : Nat) (e : eps)
    (hpull : it.pull k = PullRes.baseExn e) :
    (producerReact it k).msgs = [] ∧
    (producerReact it k).escaped = some e ∧
    (producerReact it k).continues = false ∧
    ∀ (c : Ctx alpha eps), c.aiterator = it → c.pulls = k →
      c.state = CtxState.running →
      (∀ e2, (anextCtx c).1 ≠ NextRes.raised e2) ∧
      (anextCtx c).2.producerRunning = false ∧
      (anextCtx c).2.closeCalls =
        c.closeCalls +
          (if (producerFinalize it).attempted then 1 else 0) := by
  refine ⟨?_, ?_, ?_, ?_⟩
  · simp [producerReact, hpull]
  · simp [producerReact, hpull]
  · simp [producerReact, hpull]
  · intro c hit hp hs
    refine ⟨?_, ?_, ?_⟩ <;>
      simp [anextCtx, anextRun, hs, hit, hp, hpull, finalizeInto]

/-- Witness for C10: a first pull raising a cancellation-like error. -/
theorem c10_baseexception_escapes_witness :
    (producerReact sampleBaseExnIter 0).msgs = [] ∧
    (producerReact sampleBaseExnIter 0).escaped = some "cancelled" ∧
    (anextCtx (startedCtx sampleBaseExnIter)).2.closeCalls =
      (startedCtx sampleBaseExnIter).closeCalls +
        (if (producerFinalize sampleBaseExnIter).attempted then 1 else 0) := by
  have h := c10_baseexception_escapes sampleBaseExnIter 0 "cancelled" rfl
  exact ⟨h.1, h.2.1,
    (h.2.2.2 (startedCtx sampleBaseExnIter) rfl rfl rfl).2.2⟩

/-! ### C5: terminality of FINISHED and monotonicity of transitions -/

/-- Counterexample to C5 as stated: `__aenter__` only rejects RUNNING and
FINISHED, so from EXHAUSTED it succeeds and sets the state back to RUNNING
(spawning a fresh producer task) — a transition leaving EXHAUSTED that
decreases the position along the claimed STANDBY → RUNNING/BUSY →
EXHAUSTED → FINISHED order, which is not the RUNNING↔BUSY oscillation. -/
theorem c5_counterexample :
    sampleExhaustedCtx.state = CtxState.exhausted ∧
    aenterCtx sampleExhaustedCtx =
      Except.ok
        { sampleExhaustedCtx with
            state := CtxState.running, producerRunning := true } ∧
    stateRank CtxState.running < stateRank CtxState.exhausted :=
  ⟨rfl, rfl, by decide⟩

/-- C5 amended: FINISHED is terminal — once the state is FINISHED,
`enter()` and `next()` fail with the InvalidState class (`RuntimeError`)
without changing the context and `exit()` returns immediately with no
effect — and `next()` and `exit()` never decrease the state position along
STANDBY → RUNNING/BUSY → EXHAUSTED → FINISHED (RUNNING and BUSY share a
position); `enter()`, whenever it succeeds, was called from STANDBY, BUSY
or EXHAUSTED and sets the state to RUNNING — so the only transitions
outside the monotone order are the RUNNING↔BUSY oscillation and the
restart of an EXHAUSTED (or BUSY) context through `enter()`. -/
theorem c5_finished_terminal_monotone {alpha eps : Type} (c : Ctx alpha eps)
    (typ : ExitType) :
    (c.state = CtxState.finished →
      aenterCtx c =
        Except.error (PyErr.runtimeError ErrMsg.closedCannotEnter) ∧
      anextCtx c = (NextRes.invalid ErrMsg.closedCannotIterate, c) ∧
      aexitCtx c typ = ([], c)) ∧
    stateRank c.state ≤ stateRank (anextCtx c).2.state ∧
    stateRank c.state ≤ stateRank (aexitCtx c typ).2.state ∧
    (∀ c2, aenterCtx c = Except.ok c2 → c2.state = CtxState.running ∧
      (c.state = CtxState.standby ∨ c.state = CtxState.busy ∨
        c.state = CtxState.exhausted)) := by
  refine ⟨fun h => ⟨?_, ?_, ?_⟩, ?_, ?_, ?_⟩
  · simp [aenterCtx, h]
  · simp [anextCtx, anextRun, h]
  · exact aexit_finished c typ h
  · rcases c with ⟨it, st, p, pr, cc, je, wc⟩
    cases st <;>
      simp only [anextCtx, anextRun, autoEnter] <;>
      cases hx : it.pull p <;>
      simp [hx, finalizeInto, stateRank]
  · by_cases h : c.state = CtxState.finished
    · simp [aexitCtx, h]
    · have h2 : (aexitCtx c typ).2.state = CtxState.finished := by
        simp [aexitCtx, h]
      rw [h2]
      cases hs : c.state <;> simp [stateRank]
  · intro c2 h
    by_cases h1 : c.state = CtxState.running
    · simp [aenterCtx, h1] at h
    · by_cases h2 : c.state = CtxState.finished
      · simp [aenterCtx, h1, h2] at h
      · simp [aenterCtx, h1, h2] at h
        refine ⟨by rw [← h], ?_⟩
        cases hs : c.state
        · exact Or.inl rfl
        · exact absurd hs h1
        · exact absurd hs h2
        · exact Or.inr (Or.inl rfl)
        · exact Or.inr (Or.inr rfl)

/-- Witness for C5 amended, at a FINISHED context. -/
theorem c5_finished_terminal_monotone_witness :
    aenterCtx sampleFinishedCtx =
      Except.error (PyErr.runtimeError ErrMsg.closedCannotEnter) ∧
    anextCtx sampleFinishedCtx =
      (NextRes.invalid ErrMsg.closedCannotIterate, sampleFinishedCtx) ∧
    aexitCtx sampleFinishedCtx ExitType.noExc = ([], sampleFinishedCtx) ∧
    stateRank sampleFinishedCtx.state ≤
      stateRank (anextCtx sampleFinishedCtx).2.state :=
  ⟨((c5_finished_terminal_monotone sampleFinishedCtx ExitType.noExc).1 rfl).1,
   ((c5_finished_terminal_monotone sampleFinishedCtx ExitType.noExc).1 rfl).2.1,
   ((c5_finished_terminal_monotone sampleFinishedCtx ExitType.noExc).1 rfl).2.2,
   (c5_finished_terminal_monotone sampleFinishedCtx ExitType.noExc).2.1⟩

/-! ### C6: re-wrapping guard at the constructor -/

/-- Counterexample to C6 as stated: handing an already-wrapped context to
the constructor raises the TypeMismatch class (`TypeError`, line 110), not
an error of the InvalidState class (`RuntimeError`). -/
theorem c6_counterexample :
    initCtx (IterArg.ctx sampleCtx) =
      Except.error (PyErr.typeError ErrMsg.alreadyWrapped) ∧
    raisesInvalidState (initCtx (IterArg.ctx sampleCtx)) = false :=
  ⟨rfl, rfl⟩

/-- C6 amended: for every already-wrapped context, handing it again to the
constructor fails at the wrapping entry point with the TypeMismatch class
(`TypeError`) carrying the already-an-AsyncIteratorContext diagnostic —
not with the InvalidState class. -/
theorem c6_rewrap_type_error {alpha eps : Type} (c : Ctx alpha eps) :
    initCtx (IterArg.ctx c) =
      Except.error (PyErr.typeError ErrMsg.alreadyWrapped) ∧
    raisesInvalidState (initCtx (IterArg.ctx c)) = false :=
  ⟨rfl, rfl⟩

/-! ### C7: idempotent wrapping entry point -/

/-- C7: `aitercontext` is idempotent on already-wrapped values — when the
iterator form of the argument is already an `AsyncIteratorContext` it is
returned unchanged, and otherwise a new context is constructed around the
iterator (fresh STANDBY state around exactly that iterator). -/
theorem c7_aitercontext_idempotent {alpha eps : Type} (c : Ctx alpha eps)
    (it : AIterSpec alpha eps) :
    aitercontext (AIterable.ctxIterable c) = Except.ok c ∧
    aitercontext (AIterable.plainIterable it) = Except.ok (mkCtx it) ∧
    (mkCtx it).state = CtxState.standby ∧ (mkCtx it).aiterator = it :=
  ⟨rfl, rfl, rfl, rfl⟩

/-! ### C9: the coroutine wrapper -/

/-- Counterexample to C9 as stated: for an ordinary function returning the
plain (non-awaitable) value `5`, the wrapper produced by `async_` does not
return `5` — its `return await fn(*args, **kwargs)` awaits the plain value
and raises the not-awaitable `TypeError` instead. -/
theorem c9_counterexample :
    asyncWrap samplePlainFn () = Except.error AwaitErr.notAwaitable ∧
    asyncWrap samplePlainFn () ≠ Except.ok 5 :=
  ⟨rfl, by simp [asyncWrap, samplePlainFn, awaitObj]⟩

/-- C9 amended: `async_(fn)` returns a function of identical signature
that awaits the value `fn` returns: what `fn` raises propagates unchanged;
a returned awaitable is awaited, its resolution returned or its error
propagated; but a plain non-awaitable return value makes the wrapper raise
the not-awaitable TypeMismatch error instead of returning it. No state is
kept. -/
theorem c9_asyncwrap_awaits {iota alpha eps : Type}
    (fn : iota → CallRes alpha eps) (i : iota) :
    (∀ e, fn i = CallRes.raises e →
      asyncWrap fn i = Except.error (AwaitErr.exn e)) ∧
    (∀ a, fn i = CallRes.returns (RetVal.awaitable (Except.ok a)) →
      asyncWrap fn i = Except.ok a) ∧
    (∀ e, fn i = CallRes.returns (RetVal.awaitable (Except.error e)) →
      asyncWrap fn i = Except.error (AwaitErr.exn e)) ∧
    (∀ a, fn i = CallRes.returns (RetVal.plain a) →
      asyncWrap fn i = Except.error AwaitErr.notAwaitable) := by
  refine ⟨?_, ?_, ?_, ?_⟩ <;> intro x h <;> simp [asyncWrap, h, awaitObj]

/-- Witness for C9 amended, at the plain-value-returning sample function. -/
theorem c9_asyncwrap_awaits_witness :
    asyncWrap samplePlainFn () = Except.error AwaitErr.notAwaitable :=
  (c9_asyncwrap_awaits samplePlainFn ()).2.2.2 5 rfl
